import Mathlib

/-!
Shallow embedding of the Pulse NYC Super Bowl hackathon pipeline:
the event scorer of `parse_video.py`, the chunk cache of `app.py`, and the
extraction services under `Video_Processing/`.  Texts are modelled as
`List Char`, Python floats as `ℚ` (0.2 = 1/5, 1e-8 = 1/10^8).
-/

/-- Python-style association lookup (first match wins), used to model dict
reads keyed by decidable equality. -/
def assocGet [DecidableEq α] : List (α × β) → α → Option β
  | [], _ => none
  | (k0, v) :: rest, k => if k0 = k then some v else assocGet rest k

/-- Python-style dict assignment `d[k] = v`: replace the first binding of `k`,
or append at the end when `k` is absent. -/
def assocSet [DecidableEq α] : List (α × β) → α → β → List (α × β)
  | [], k, v => [(k, v)]
  | (k0, v0) :: rest, k, v =>
    if k0 = k then (k, v) :: rest else (k0, v0) :: assocSet rest k v

/-- `beginsWith pat s` holds when `pat` is an initial segment of `s`. -/
def beginsWith : List Char → List Char → Bool
  | [], _ => true
  | _ :: _, [] => false
  | p :: ps, c :: cs => p = c && beginsWith ps cs

/-- Scanner behind Python `str.count`: at skip level 0 test the pattern at the
current position and, on a match, skip its remaining length so occurrences do
not overlap; a positive skip level just consumes one character. -/
def pyCountSkip (pat : List Char) : Nat → List Char → Nat
  | _, [] => 0
  | 0, c :: rest =>
    if beginsWith pat (c :: rest) then
      1 + pyCountSkip pat (pat.length - 1) rest
    else
      pyCountSkip pat 0 rest
  | k + 1, _ :: rest => pyCountSkip pat k rest

/-- Python `s.count(pat)`: number of non-overlapping occurrences of `pat` in
`s` (for the empty pattern Python returns `len(s) + 1`). -/
def pyCount (s pat : List Char) : Nat :=
  if pat = [] then s.length + 1 else pyCountSkip pat 0 s

/-- Python `lst[-n:]` for `n ≥ 0`: the last `n` elements (the whole list when
`n = 0`, since `lst[-0:]` is `lst[0:]`). -/
def pyNegSlice (n : Nat) (l : List α) : List α :=
  if n = 0 then l else l.drop (l.length - n)

/-- `text.replace(";", "")` from `feed_new_event`: removing every occurrence
of the single character `';'` is exactly a filter. -/
def removeSemi (s : List Char) : List Char :=
  s.filter (fun c => c ≠ ';')

/-- Python `";".join(words)` as built by the pipeline's `word_list`. -/
def joinSemi : List (List Char) → List Char
  | [] => []
  | [w] => w
  | w :: ws => w ++ ';' :: joinSemi ws

/-- `SCALING_EVENT_WORD = 1000` (parse_video.py line 13). -/
def SCALING_EVENT_WORD : ℚ := 1000

/-- `DECIBLE_DECAY_FACTOR = 0.2` (parse_video.py line 14); 0.2 = 1/5. -/
def DECIBLE_DECAY_FACTOR : ℚ := 1 / 5

/-- State of `EventDetector` (parse_video.py lines 16-26): the fed
observations, the window bound `consider_last_n = 5`, the event-type →
keyword table, the feed counter and the per-feed score log. -/
structure EventDetector where
  tokens_so_far : List (List Char × ℚ)
  consider_last_n : Nat
  events : List (String × List (List Char))
  count : Nat
  score_logs : List ℚ
deriving DecidableEq

/-- `EventDetector.__init__`. -/
def EventDetector.init : EventDetector where
  tokens_so_far := []
  consider_last_n := 5
  events := [("touchdown",
    ["touchdown".toList, "watchdown".toList, "countdown".toList])]
  count := 0
  score_logs := []

/-- Inner double loop of the first term of `decide_event` (lines 43-45):
total occurrence count of an event type's keyword set in one chunk text. -/
def matchCount (keywords : List (List Char)) (chunk_text : List Char) : Nat :=
  (keywords.map (fun key_word => pyCount chunk_text key_word)).sum

/-- First loop of `decide_event` (lines 39-49), per event type: walk the
window newest-first, adding `match_count * decay` and multiplying `decay`
by `DECIBLE_DECAY_FACTOR` between chunks. -/
def keywordLoop (keywords : List (List Char)) : List (List Char) → ℚ → ℚ
  | [], _ => 0
  | chunk_text :: rest, decay =>
    (matchCount keywords chunk_text : ℚ) * decay
      + keywordLoop keywords rest (decay * DECIBLE_DECAY_FACTOR)

/-- Second loop of `decide_event` (lines 51-56), per event type: add
`chunk[1] * decay` for each window entry, decaying between chunks. -/
def loudnessLoop : List (List Char × ℚ) → ℚ → ℚ
  | [], _ => 0
  | chunk :: rest, decay =>
    chunk.2 * decay + loudnessLoop rest (decay * DECIBLE_DECAY_FACTOR)

/-- Third loop of `decide_event` (lines 58-62), per event type: add
`len(chunk[0])` for each window entry.  The loop updates a `decay`
variable exactly as the source does but, like the source, never uses it. -/
def lengthLoop : List (List Char × ℚ) → ℚ → ℚ
  | [], _ => 0
  | chunk :: rest, decay =>
    (chunk.1.length : ℚ) + lengthLoop rest (decay * DECIBLE_DECAY_FACTOR)

/-- The reversed trailing window `self.tokens_so_far[-self.consider_last_n:][::-1]`
of `decide_event` line 29 (newest observation first). -/
def EventDetector.window (d : EventDetector) : List (List Char × ℚ) :=
  (pyNegSlice d.consider_last_n d.tokens_so_far).reverse

/-- The `scores` defaultdict computed by `decide_event` (lines 35-62), as an
association list.  Keys enter `scores` only through the first loop, so when
the window is empty no key exists and the later loops add nothing; otherwise
every event key receives the keyword term plus the loudness and length terms
(those two are identical for all keys, as the source's second and third loops
add the same window totals to every key already in `scores`). -/
def EventDetector.decide_scores (d : EventDetector) : List (String × ℚ) :=
  let last_events := d.window
  let full_text_list := last_events.map Prod.fst
  if full_text_list = [] then []
  else
    d.events.map (fun p =>
      (p.1, keywordLoop p.2 full_text_list SCALING_EVENT_WORD
        + loudnessLoop last_events 1
        + lengthLoop last_events 1000))

/-- `decide_event` (lines 28-65): compute the scores and append
`scores['touchdown']` (0 when absent, as for a fresh defaultdict key) to
`score_logs`. -/
def EventDetector.decide_event (d : EventDetector) : EventDetector :=
  { d with score_logs :=
      d.score_logs ++ [(assocGet d.decide_scores "touchdown").getD 0] }

/-- `feed_new_event` (lines 68-75): strip `';'` from the text, append the
observation, rescore, and bump the counter. -/
def EventDetector.feed_new_event (d : EventDetector) (new_event : List Char × ℚ) :
    EventDetector :=
  let d1 := { d with tokens_so_far :=
    d.tokens_so_far ++ [(removeSemi new_event.1, new_event.2)] }
  let d2 := d1.decide_event
  { d2 with count := d2.count + 1 }

/-- The sanitisation `feed_new_event` applies to an observation before
storing it. -/
def sanitizeObs (e : List Char × ℚ) : List Char × ℚ :=
  (removeSemi e.1, e.2)

/-- Feed a whole sequence of observations, in order. -/
def feedAll (d : EventDetector) (obs : List (List Char × ℚ)) : EventDetector :=
  obs.foldl EventDetector.feed_new_event d

/-- The detector obtained by feeding `obs` to a freshly constructed
`EventDetector`. -/
def runDetector (obs : List (List Char × ℚ)) : EventDetector :=
  feedAll EventDetector.init obs

/-- Default observation used with `List.getD` when indexing a window. -/
def obsDefault : List Char × ℚ := ([], 0)

/-- The scorer configuration of the spec's end-to-end example (§8):
window size 3 and keyword table `{"goal": ["goal", "score"]}`, run through
the same `decide_event` algorithm. -/
def goalScorer : EventDetector where
  tokens_so_far := []
  consider_last_n := 3
  events := [("goal", ["goal".toList, "score".toList])]
  count := 0
  score_logs := []

/-- The three observations of the spec's end-to-end example, in feed order. -/
def goalExampleFeeds : List (List Char × ℚ) :=
  [("great goal here".toList, 9 / 10), ("nothing much".toList, 1 / 10),
    ("goal goal!".toList, 19 / 20)]

/-- `CHUNK_LENGTH = 5` seconds (parse_video.py line 87). -/
def CHUNK_LENGTH : ℚ := 5

/-- One pass of the hard real-time sync at the bottom of the chunk loop
(parse_video.py lines 180-184): with the wall clock at `now` after
processing chunk `i`, compute `target_time = start_wall_time +
(i + 1) * chunk_length` and `sleep_time = target_time - now`; sleep for
exactly `sleep_time` when it is positive, otherwise continue at once. -/
def paceStep (start_wall_time chunk_length : ℚ) (i : Nat) (now : ℚ) : ℚ :=
  let target_time := start_wall_time + (i + 1) * chunk_length
  let sleep_time := target_time - now
  if 0 < sleep_time then now + sleep_time else now

/-- Wall-clock time after `n` iterations of the chunk loop, where
`proc j` is the (arbitrary) time spent processing chunk `j`:
`start_wall_time` is recorded once (line 127), each iteration processes
its chunk and then runs the sync step. -/
def paceRun (start_wall_time chunk_length : ℚ) (proc : Nat → ℚ) : Nat → ℚ
  | 0 => start_wall_time
  | n + 1 => paceStep start_wall_time chunk_length n
      (paceRun start_wall_time chunk_length proc n + proc n)

/-- One formatted transcript segment (`{'start','end','text'}` as built in
`_transcribe_whisper`); `stop` stands for the source's `end` key, which is a
reserved word in Lean. -/
structure Segment where
  start : ℚ
  stop : ℚ
  text : String
deriving DecidableEq

/-- Transcription result dictionary `{'text','segments','language'}`. -/
structure TranscriptResult where
  text : String
  segments : List Segment
  language : String
deriving DecidableEq

/-- The degraded result `{'text': '', 'segments': [], 'language': 'en'}`
returned on every failure path of `TranscriptionService.transcribe`. -/
def emptyTranscript : TranscriptResult :=
  { text := "", segments := [], language := "en" }

/-- Raw output of a Whisper model run: text, `(start, end, text)` segments
and the detected language. -/
structure WhisperOutput where
  text : String
  segments : List (ℚ × ℚ × String)
  language : String
deriving DecidableEq

/-- Segment formatting and stripping of `_transcribe_whisper`
(transcription_service.py lines 124-138). -/
def formatWhisper (w : WhisperOutput) : TranscriptResult :=
  { text := w.text.trim
    segments := w.segments.map (fun seg => ⟨seg.1, seg.2.1, seg.2.2.trim⟩)
    language := w.language }

/-- `TranscriptionService.transcribe` (transcription_service.py lines
75-108, with its `_transcribe_whisper` / `_transcribe_wav2vec2` helpers).
External effects are passed in explicitly: `fileExists` is the
`os.path.exists` probe, `modelLoaded` whether `self.model` is not `None`,
and `whisperRun` / `wav2vecRun` the backend model invocations, which may
raise (`Except.error`).  Every failure path returns `emptyTranscript`
instead of propagating the exception. -/
def TranscriptionService.transcribe (model_type : String)
    (fileExists modelLoaded : Bool)
    (whisperRun : Except String WhisperOutput)
    (wav2vecRun : Except String String) : TranscriptResult :=
  if !fileExists then emptyTranscript
  else if !modelLoaded then emptyTranscript
  else if beginsWith "whisper".toList model_type.toList then
    match whisperRun with
    | .error _ => emptyTranscript
    | .ok w => formatWhisper w
  else if model_type = "wav2vec2" then
    match wav2vecRun with
    | .error _ => emptyTranscript
    | .ok t => { text := t, segments := [], language := "en" }
  else emptyTranscript

/-- Normalisation step of `AudioProcessor.get_amplitudes` (audio_processor.py
lines 97-104): `(rms - rms.min()) / (rms.max() - rms.min() + 1e-8)` when the
series is non-empty, else the empty array. -/
def listMin (l : List ℚ) : ℚ := l.foldl min (l.headD 0)

/-- Maximum of an rms series (numpy `rms.max()`). -/
def listMax (l : List ℚ) : ℚ := l.foldl max (l.headD 0)

/-- `rms_normalized` of `AudioProcessor.get_amplitudes`. -/
def normalizeRms (rms : List ℚ) : List ℚ :=
  if 0 < rms.length then
    rms.map (fun x => (x - listMin rms) / (listMax rms - listMin rms + 1 / 100000000))
  else []

/-- `AudioProcessor.get_amplitudes` (audio_processor.py lines 74-111):
`rmsResult` is the external load + RMS computation, which may raise; any
exception in the `try` block yields the empty list. -/
def AudioProcessor.get_amplitudes (rmsResult : Except String (List ℚ)) : List ℚ :=
  match rmsResult with
  | .error _ => []
  | .ok rms => normalizeRms rms

/-- Python `int(q)`: truncation toward zero. -/
def pyInt (q : ℚ) : ℤ :=
  if 0 ≤ q then ⌊q⌋ else ⌈q⌉

/-- `chunk_path` of `VideoProcessor.download_chunk` (video_processor.py lines
89-90): `os.path.join(chunks_folder, f'chunk_{int(start_time)}_{int(duration)}.mp4')`. -/
def chunkFilePath (chunks_folder : String) (start_time duration : ℚ) : String :=
  chunks_folder ++ "/chunk_" ++ toString (pyInt start_time) ++ "_"
    ++ toString (pyInt duration) ++ ".mp4"

/-- `VideoProcessor.download_chunk` (video_processor.py lines 72-150).
`file_exists` is the `os.path.exists` probe over durable storage; `fetch`
models the whole network/subprocess branch (yt-dlp or ffmpeg), returning
whether `chunk_path` exists afterwards, or raising (timeout included).
The second component of the result records whether `fetch` was invoked.
When the materialized chunk already exists its path is returned with no
fetch performed. -/
def VideoProcessor.download_chunk (file_exists : String → Bool)
    (fetch : String → ℚ → ℚ → Except String Bool)
    (chunks_folder video_url : String) (start_time duration : ℚ) :
    Option String × Bool :=
  let chunk_path := chunkFilePath chunks_folder start_time duration
  if file_exists chunk_path then (some chunk_path, false)
  else
    match fetch video_url start_time duration with
    | .error _ => (none, true)
    | .ok created => (if created then some chunk_path else none, true)

/-- Cache key `(video_url, start_time, duration)`.  The source builds the
string `f"{video_url}_{start_time}_{duration}"`; for the numeric
`start_time`/`duration` of requests this string determines the triple, and
the triple is the spec's ChunkKey. -/
abbrev ChunkKey := String × ℚ × ℚ

/-- One cached chunk result (the JSON dict built by `process_chunk`,
app.py lines 141-150). -/
structure ChunkResult where
  start_time : ℚ
  duration : ℚ
  video_path : String
  audio_path : Option String
  transcript : TranscriptResult
  amplitudes : List ℚ
  processed_at : ℚ
deriving DecidableEq

/-- The module-level `chunk_cache = defaultdict(dict)` of app.py line 43:
an outer map from `video_url` to an inner map from cache key to result. -/
abbrev ChunkCache := List (String × List (ChunkKey × ChunkResult))

/-- `cache_key in chunk_cache.get(video_url, {})` followed by the read
(app.py lines 118-120). -/
def cacheLookup (c : ChunkCache) (video_url : String) (k : ChunkKey) :
    Option ChunkResult :=
  match assocGet c video_url with
  | none => none
  | some inner => assocGet inner k

/-- `if video_url not in chunk_cache: chunk_cache[video_url] = {}` then
`chunk_cache[video_url][cache_key] = result` (app.py lines 153-155). -/
def cacheInsert (c : ChunkCache) (video_url : String) (k : ChunkKey)
    (r : ChunkResult) : ChunkCache :=
  assocSet c video_url (assocSet ((assocGet c video_url).getD []) k r)

/-- The external pipeline stages called by `process_chunk`, as oracles:
`download_chunk` may fail by returning no path; the extraction and
transcription stages may raise (the route's `try` turns any such exception
into an error response).  As the repository's services stand, the latter
three absorb their own errors, but the route is written to catch them. -/
structure Pipeline where
  download_chunk : String → ℚ → ℚ → Option String
  extract_audio : String → ℚ → Except String (Option String)
  get_amplitudes : Option String → Except String (List ℚ)
  transcribe : Option String → Except String TranscriptResult

/-- HTTP-level outcome of the route: a JSON result or an error payload. -/
inductive ChunkResponse where
  | ok : ChunkResult → ChunkResponse
  | err : String → ChunkResponse
deriving DecidableEq

/-- The `/api/process/chunk` handler `process_chunk` (app.py lines 94-164):
check the cache, otherwise download, extract, analyse, transcribe, cache
and return.  The third component records whether any pipeline work
(download / extraction / amplitude / transcription) was performed; a cache
hit performs none.  Failures return an error response and leave the cache
untouched (the insert at lines 152-155 runs only after every stage
succeeded). -/
def process_chunk (pipe : Pipeline) (now : ℚ) (cache : ChunkCache)
    (video_url : String) (start_time duration : ℚ) :
    ChunkCache × ChunkResponse × Bool :=
  let cache_key : ChunkKey := (video_url, start_time, duration)
  match cacheLookup cache video_url cache_key with
  | some r => (cache, .ok r, false)
  | none =>
    match pipe.download_chunk video_url start_time duration with
    | none => (cache, .err "Failed to download chunk", true)
    | some chunk_path =>
      match pipe.extract_audio chunk_path start_time with
      | .error e => (cache, .err e, true)
      | .ok audio_path =>
        match pipe.get_amplitudes audio_path with
        | .error e => (cache, .err e, true)
        | .ok amplitudes =>
          match pipe.transcribe audio_path with
          | .error e => (cache, .err e, true)
          | .ok transcript =>
            let result : ChunkResult :=
              { start_time := start_time, duration := duration
                video_path := chunk_path, audio_path := audio_path
                transcript := transcript, amplitudes := amplitudes
                processed_at := now }
            (cacheInsert cache video_url cache_key result, .ok result, true)

/-- A pipeline whose download step always fails, used to exhibit the
error path of `process_chunk` concretely. -/
def failingPipeline : Pipeline where
  download_chunk := fun _ _ _ => none
  extract_audio := fun _ _ => .ok none
  get_amplitudes := fun _ => .ok []
  transcribe := fun _ => .ok emptyTranscript

/-- A pipeline whose stages all succeed with fixed outputs, used to exhibit
the computing path of `process_chunk` concretely. -/
def okPipeline : Pipeline where
  download_chunk := fun _ _ _ => some "chunks/chunk_0_5.mp4"
  extract_audio := fun _ _ => .ok (some "audio/chunk_0_5.wav")
  get_amplitudes := fun _ => .ok [1, 0]
  transcribe := fun _ => .ok emptyTranscript

/-- A concrete chunk result used to exhibit cache behaviour. -/
def sampleResult : ChunkResult where
  start_time := 0
  duration := 5
  video_path := "chunks/chunk_0_5.mp4"
  audio_path := some "audio/chunk_0_5.wav"
  transcript := emptyTranscript
  amplitudes := [1, 0]
  processed_at := 3

/-! ## Helper lemmas -/

theorem feed_new_event_tokens (d : EventDetector) (e : List Char × ℚ) :
    (d.feed_new_event e).tokens_so_far = d.tokens_so_far ++ [sanitizeObs e] := rfl

theorem feed_new_event_consider (d : EventDetector) (e : List Char × ℚ) :
    (d.feed_new_event e).consider_last_n = d.consider_last_n := rfl

theorem feed_new_event_events (d : EventDetector) (e : List Char × ℚ) :
    (d.feed_new_event e).events = d.events := rfl

theorem feedAll_tokens (obs : List (List Char × ℚ)) : ∀ d : EventDetector,
    (feedAll d obs).tokens_so_far = d.tokens_so_far ++ obs.map sanitizeObs := by
  induction obs with
  | nil => intro d; simp [feedAll]
  | cons e rest ih =>
    intro d
    show (feedAll (d.feed_new_event e) rest).tokens_so_far = _
    rw [ih, feed_new_event_tokens]
    simp

theorem feedAll_consider (obs : List (List Char × ℚ)) : ∀ d : EventDetector,
    (feedAll d obs).consider_last_n = d.consider_last_n := by
  induction obs with
  | nil => intro d; rfl
  | cons e rest ih =>
    intro d
    show (feedAll (d.feed_new_event e) rest).consider_last_n = _
    rw [ih, feed_new_event_consider]

theorem feedAll_events (obs : List (List Char × ℚ)) : ∀ d : EventDetector,
    (feedAll d obs).events = d.events := by
  induction obs with
  | nil => intro d; rfl
  | cons e rest ih =>
    intro d
    show (feedAll (d.feed_new_event e) rest).events = _
    rw [ih, feed_new_event_events]

theorem runDetector_tokens (obs : List (List Char × ℚ)) :
    (runDetector obs).tokens_so_far = obs.map sanitizeObs := by
  rw [runDetector, feedAll_tokens]; rfl

theorem keywordLoop_eq_sum (kws : List (List Char)) (texts : List (List Char)) :
    ∀ decay : ℚ, keywordLoop kws texts decay =
      ∑ i in Finset.range texts.length,
        (matchCount kws (texts.getD i []) : ℚ) * decay * DECIBLE_DECAY_FACTOR ^ i := by
  induction texts with
  | nil => intro decay; simp [keywordLoop]
  | cons t rest ih =>
    intro decay
    rw [keywordLoop, ih (decay * DECIBLE_DECAY_FACTOR), List.length_cons,
      Finset.sum_range_succ']
    simp only [List.getD_cons_succ, List.getD_cons_zero, pow_zero, mul_one]
    rw [add_comm]
    congr 1
    refine Finset.sum_congr rfl fun i _ => ?_
    rw [pow_succ]
    ring

theorem loudnessLoop_eq_sum (l : List (List Char × ℚ)) :
    ∀ decay : ℚ, loudnessLoop l decay =
      ∑ i in Finset.range l.length,
        (l.getD i obsDefault).2 * decay * DECIBLE_DECAY_FACTOR ^ i := by
  induction l with
  | nil => intro decay; simp [loudnessLoop]
  | cons c rest ih =>
    intro decay
    rw [loudnessLoop, ih (decay * DECIBLE_DECAY_FACTOR), List.length_cons,
      Finset.sum_range_succ']
    simp only [List.getD_cons_succ, List.getD_cons_zero, pow_zero, mul_one]
    rw [add_comm]
    congr 1
    refine Finset.sum_congr rfl fun i _ => ?_
    rw [pow_succ]
    ring

theorem lengthLoop_eq_sum (l : List (List Char × ℚ)) :
    ∀ decay : ℚ, lengthLoop l decay =
      ∑ i in Finset.range l.length, ((l.getD i obsDefault).1.length : ℚ) := by
  induction l with
  | nil => intro decay; simp [lengthLoop]
  | cons c rest ih =>
    intro decay
    rw [lengthLoop, ih (decay * DECIBLE_DECAY_FACTOR), List.length_cons,
      Finset.sum_range_succ']
    simp only [List.getD_cons_succ, List.getD_cons_zero]
    rw [add_comm]

theorem getD_map_fst (l : List (List Char × ℚ)) : ∀ i : Nat,
    (l.map Prod.fst).getD i [] = (l.getD i obsDefault).1 := by
  induction l with
  | nil => intro i; simp [obsDefault]
  | cons a rest ih =>
    intro i
    cases i with
    | zero => simp
    | succ n => simpa using ih n

theorem assocGet_map_scores (texts : List (List Char))
    (win : List (List Char × ℚ)) (key : String) :
    ∀ ev : List (String × List (List Char)),
      assocGet (ev.map (fun p =>
        (p.1, keywordLoop p.2 texts SCALING_EVENT_WORD
          + loudnessLoop win 1 + lengthLoop win 1000))) key
      = (assocGet ev key).map (fun kws =>
          keywordLoop kws texts SCALING_EVENT_WORD
            + loudnessLoop win 1 + lengthLoop win 1000) := by
  intro ev
  induction ev with
  | nil => rfl
  | cons p rest ih =>
    by_cases h : p.1 = key <;> simp [assocGet, h, ih]

theorem pyNegSlice_length (n : Nat) (hn : n ≠ 0) (l : List α) :
    (pyNegSlice n l).length = min l.length n := by
  simp [pyNegSlice, hn, List.length_drop]
  omega

theorem window_decide_scores (d : EventDetector) (hw : d.window ≠ []) :
    d.decide_scores = d.events.map (fun p =>
      (p.1, keywordLoop p.2 (d.window.map Prod.fst) SCALING_EVENT_WORD
        + loudnessLoop d.window 1 + lengthLoop d.window 1000)) := by
  have hmap : d.window.map Prod.fst ≠ [] := by
    simpa using hw
  rw [EventDetector.decide_scores]
  simp only [hmap, if_neg]
  simp [hmap]

theorem decide_scores_lookup (d : EventDetector) (hw : d.window ≠ [])
    (key : String) (kws : List (List Char))
    (hkey : assocGet d.events key = some kws) :
    assocGet d.decide_scores key = some
      (keywordLoop kws (d.window.map Prod.fst) SCALING_EVENT_WORD
        + loudnessLoop d.window 1 + lengthLoop d.window 1000) := by
  rw [window_decide_scores d hw, assocGet_map_scores, hkey, Option.map_some']

theorem removeSemi_eq_self (w : List Char) (h : ';' ∉ w) : removeSemi w = w := by
  rw [removeSemi, List.filter_eq_self]
  intro a ha
  simp only [ne_eq, decide_eq_true_eq]
  rintro rfl
  exact h ha

theorem removeSemi_append (a b : List Char) :
    removeSemi (a ++ b) = removeSemi a ++ removeSemi b := by
  simp [removeSemi]

theorem removeSemi_semi_cons (b : List Char) :
    removeSemi (';' :: b) = removeSemi b := by
  simp [removeSemi]

theorem removeSemi_joinSemi : ∀ words : List (List Char),
    (∀ w ∈ words, ';' ∉ w) → removeSemi (joinSemi words) = words.flatten
  | [], _ => rfl
  | [w], h => by
    show removeSemi w = [w].flatten
    rw [removeSemi_eq_self w (h w (by simp))]
    simp
  | w :: x :: xs, h => by
    show removeSemi (w ++ ';' :: joinSemi (x :: xs)) = (w :: x :: xs).flatten
    rw [removeSemi_append, removeSemi_semi_cons,
      removeSemi_eq_self w (h w (by simp)),
      removeSemi_joinSemi (x :: xs) (fun u hu => h u (by simp [hu]))]
    simp

theorem assocGet_assocSet_self [DecidableEq α] (l : List (α × β)) (k : α) (v : β) :
    assocGet (assocSet l k v) k = some v := by
  induction l with
  | nil => simp [assocSet, assocGet]
  | cons p rest ih =>
    by_cases h : p.1 = k
    · simp [assocSet, h, assocGet]
    · simp [assocSet, h, assocGet, ih]

theorem cacheLookup_cacheInsert_self (c : ChunkCache) (url : String) (k : ChunkKey)
    (r : ChunkResult) :
    cacheLookup (cacheInsert c url k r) url k = some r := by
  simp [cacheLookup, cacheInsert, assocGet_assocSet_self]

theorem process_chunk_ok_cached (pipe : Pipeline) (now : ℚ) (cache : ChunkCache)
    (url : String) (s d : ℚ) (r : ChunkResult)
    (h : (process_chunk pipe now cache url s d).2.1 = ChunkResponse.ok r) :
    cacheLookup (process_chunk pipe now cache url s d).1 url (url, s, d) = some r := by
  rcases hc : cacheLookup cache url (url, s, d) with _ | r0
  · rcases hd : pipe.download_chunk url s d with _ | path
    · simp [process_chunk, hc, hd] at h
    · rcases he : pipe.extract_audio path s with e | audio
      · simp [process_chunk, hc, hd, he] at h
      · rcases ha : pipe.get_amplitudes audio with e | amps
        · simp [process_chunk, hc, hd, he, ha] at h
        · rcases ht : pipe.transcribe audio with e | tr
          · simp [process_chunk, hc, hd, he, ha, ht] at h
          · simp only [process_chunk, hc, hd, he, ha, ht] at h ⊢
            injection h with h2
            rw [← h2]
            exact cacheLookup_cacheInsert_self cache url (url, s, d) _
  · simp only [process_chunk, hc] at h ⊢
    injection h with h2
    rw [← h2]

/-! ## Claim theorems -/

/-- C1: after each feed, for every event type in the table the score equals a
keyword term `∑ i < w, count_i * 1000 * 0.2^i` plus a loudness term
`∑ i < w, loudness_i * 0.2^i` (plus the length term), over the window of the
`w = min(#feeds, 5)` most recent stored observations, newest first. -/
theorem scorer_decayed_terms (obs : List (List Char × ℚ)) (hobs : obs ≠ [])
    (key : String) (kws : List (List Char))
    (hkey : assocGet EventDetector.init.events key = some kws) :
    (runDetector obs).window.length = min obs.length 5 ∧
    assocGet (runDetector obs).decide_scores key = some
      ((∑ i in Finset.range (runDetector obs).window.length,
          (matchCount kws ((runDetector obs).window.getD i obsDefault).1 : ℚ)
            * SCALING_EVENT_WORD * DECIBLE_DECAY_FACTOR ^ i)
        + (∑ i in Finset.range (runDetector obs).window.length,
            ((runDetector obs).window.getD i obsDefault).2 * DECIBLE_DECAY_FACTOR ^ i)
        + (∑ i in Finset.range (runDetector obs).window.length,
            (((runDetector obs).window.getD i obsDefault).1.length : ℚ))) := by
  have hn : (runDetector obs).consider_last_n = 5 := by
    rw [runDetector, feedAll_consider]
    rfl
  have hlen : (runDetector obs).window.length = min obs.length 5 := by
    rw [EventDetector.window, List.length_reverse, hn,
      pyNegSlice_length 5 (by norm_num), runDetector_tokens, List.length_map]
  have hpos : 0 < obs.length := List.length_pos.mpr hobs
  have hwne : (runDetector obs).window ≠ [] := by
    rw [← List.length_pos, hlen]
    omega
  have hev : assocGet (runDetector obs).events key = some kws := by
    rw [runDetector, feedAll_events]
    exact hkey
  refine ⟨hlen, ?_⟩
  rw [decide_scores_lookup _ hwne key kws hev]
  congr 1
  rw [keywordLoop_eq_sum, loudnessLoop_eq_sum, lengthLoop_eq_sum, List.length_map]
  congr 1
  · congr 1
    · refine Finset.sum_congr rfl fun i _ => ?_
      rw [getD_map_fst]
    · refine Finset.sum_congr rfl fun i _ => ?_
      rw [mul_one]

theorem scorer_decayed_terms_witness :
    ([("touchdown".toList, (1 : ℚ))] : List (List Char × ℚ)) ≠ [] ∧
    assocGet EventDetector.init.events "touchdown"
      = some ["touchdown".toList, "watchdown".toList, "countdown".toList] ∧
    (runDetector [("touchdown".toList, 1)]).window.length = min 1 5 :=
  ⟨by simp, rfl,
    (scorer_decayed_terms [("touchdown".toList, 1)] (by simp) "touchdown"
      ["touchdown".toList, "watchdown".toList, "countdown".toList] rfl).1⟩

theorem goal_example_window : (feedAll goalScorer goalExampleFeeds).window
    = [("goal goal!".toList, 19 / 20), ("nothing much".toList, 1 / 10),
        ("great goal here".toList, 9 / 10)] := rfl

theorem goal_example_keyword_value :
    keywordLoop ["goal".toList, "score".toList]
      ((feedAll goalScorer goalExampleFeeds).window.map Prod.fst)
      SCALING_EVENT_WORD = 2040 := by
  have hm3 : matchCount ["goal".toList, "score".toList] "goal goal!".toList = 2 := by
    decide
  have hm2 : matchCount ["goal".toList, "score".toList] "nothing much".toList = 0 := by
    decide
  have hm1 : matchCount ["goal".toList, "score".toList] "great goal here".toList = 1 := by
    decide
  rw [goal_example_window]
  simp only [List.map_cons, List.map_nil, keywordLoop, hm1, hm2, hm3]
  norm_num [SCALING_EVENT_WORD, DECIBLE_DECAY_FACTOR]

theorem goal_example_loudness_value :
    loudnessLoop (feedAll goalScorer goalExampleFeeds).window 1 = 1006 / 1000 := by
  rw [goal_example_window]
  simp only [loudnessLoop]
  norm_num [DECIBLE_DECAY_FACTOR]

theorem goal_example_length_value :
    lengthLoop (feedAll goalScorer goalExampleFeeds).window 1000 = 37 := by
  have h3 : "goal goal!".toList.length = 10 := by decide
  have h2 : "nothing much".toList.length = 12 := by decide
  have h1 : "great goal here".toList.length = 15 := by decide
  rw [goal_example_window]
  simp only [lengthLoop, h1, h2, h3]
  norm_num

theorem goal_example_score_value :
    assocGet (feedAll goalScorer goalExampleFeeds).decide_scores "goal"
      = some (2040 + 1006 / 1000 + 37) := by
  have hw : (feedAll goalScorer goalExampleFeeds).window ≠ [] := by
    rw [goal_example_window]
    simp
  have hkey : assocGet (feedAll goalScorer goalExampleFeeds).events "goal"
      = some ["goal".toList, "score".toList] := rfl
  rw [decide_scores_lookup _ hw "goal" ["goal".toList, "score".toList] hkey,
    goal_example_keyword_value, goal_example_loudness_value,
    goal_example_length_value]

/-- C2 counterexample: on the spec's example feeds the loudness term is
0.95*1 + 0.1*0.2 + 0.9*0.04 = 1.006, not the 0.996 the claim states, so the
claimed total 2040 + 0.996 + 37 is not the "goal" score either. -/
theorem goal_example_loudness_counterexample :
    loudnessLoop (feedAll goalScorer goalExampleFeeds).window 1 ≠ 996 / 1000 ∧
    assocGet (feedAll goalScorer goalExampleFeeds).decide_scores "goal"
      ≠ some (2040 + 996 / 1000 + 37) := by
  constructor
  · rw [goal_example_loudness_value]
    norm_num
  · rw [goal_example_score_value]
    simp only [ne_eq, Option.some.injEq]
    norm_num

/-- C2 (amended): with window size 3, keywords `{"goal": ["goal","score"]}`,
K = 1000 and DECAY = 0.2, the third feed of the example yields keyword
subtotal 2040 (2000 + 0 + 40), loudness term 1.006
(0.95*1 + 0.1*0.2 + 0.9*0.04), an unweighted length term
len "goal goal!" + len "nothing much" + len "great goal here" = 37, and the
total "goal" score is the sum 2040 + 1.006 + 37 of the three terms. -/
theorem goal_example_exact_scores :
    keywordLoop ["goal".toList, "score".toList]
      ((feedAll goalScorer goalExampleFeeds).window.map Prod.fst)
      SCALING_EVENT_WORD = 2040 ∧
    loudnessLoop (feedAll goalScorer goalExampleFeeds).window 1 = 1006 / 1000 ∧
    lengthLoop (feedAll goalScorer goalExampleFeeds).window 1000
      = ("goal goal!".toList.length : ℚ) + "nothing much".toList.length
        + "great goal here".toList.length ∧
    assocGet (feedAll goalScorer goalExampleFeeds).decide_scores "goal"
      = some (2040 + 1006 / 1000 + 37) := by
  refine ⟨goal_example_keyword_value, goal_example_loudness_value, ?_,
    goal_example_score_value⟩
  rw [goal_example_length_value]
  norm_num

/-- C3: the third (text-length) term of the scorer adds `len(text)` of each
window observation with constant weight 1 — the decay variable the loop
computes is never applied — so the length contribution to every event
type's score is the plain sum of the window texts' lengths. -/
theorem length_term_unweighted (obs : List (List Char × ℚ)) (hobs : obs ≠ [])
    (key : String) (kws : List (List Char))
    (hkey : assocGet EventDetector.init.events key = some kws) :
    (∀ (l : List (List Char × ℚ)) (decay decay' : ℚ),
      lengthLoop l decay = lengthLoop l decay') ∧
    assocGet (runDetector obs).decide_scores key = some
      (keywordLoop kws ((runDetector obs).window.map Prod.fst) SCALING_EVENT_WORD
        + loudnessLoop (runDetector obs).window 1
        + ∑ i in Finset.range (runDetector obs).window.length,
            (((runDetector obs).window.getD i obsDefault).1.length : ℚ)) := by
  have hn : (runDetector obs).consider_last_n = 5 := by
    rw [runDetector, feedAll_consider]
    rfl
  have hlen : (runDetector obs).window.length = min obs.length 5 := by
    rw [EventDetector.window, List.length_reverse, hn,
      pyNegSlice_length 5 (by norm_num), runDetector_tokens, List.length_map]
  have hpos : 0 < obs.length := List.length_pos.mpr hobs
  have hwne : (runDetector obs).window ≠ [] := by
    rw [← List.length_pos, hlen]
    omega
  have hev : assocGet (runDetector obs).events key = some kws := by
    rw [runDetector, feedAll_events]
    exact hkey
  refine ⟨fun l decay decay' => by rw [lengthLoop_eq_sum, lengthLoop_eq_sum], ?_⟩
  rw [decide_scores_lookup _ hwne key kws hev]
  congr 2
  rw [lengthLoop_eq_sum]

theorem length_term_unweighted_witness :
    ([("xy".toList, (2 : ℚ))] : List (List Char × ℚ)) ≠ [] ∧
    assocGet EventDetector.init.events "touchdown"
      = some ["touchdown".toList, "watchdown".toList, "countdown".toList] ∧
    lengthLoop [("xy".toList, (2 : ℚ))] 1000 = lengthLoop [("xy".toList, (2 : ℚ))] 7 :=
  ⟨by simp, rfl,
    (length_term_unweighted [("xy".toList, 2)] (by simp) "touchdown"
      ["touchdown".toList, "watchdown".toList, "countdown".toList] rfl).1
      [("xy".toList, 2)] 1000 7⟩

/-- C4: after more than five feeds the scoring window
`tokens_so_far[-consider_last_n:]` holds exactly the five most recently fed
(sanitised) observations, in insertion order, with all older ones evicted. -/
theorem window_bound_fifo (obs : List (List Char × ℚ)) (h5 : 5 < obs.length) :
    (pyNegSlice (runDetector obs).consider_last_n
        (runDetector obs).tokens_so_far).length = 5 ∧
    pyNegSlice (runDetector obs).consider_last_n (runDetector obs).tokens_so_far
      = (obs.map sanitizeObs).drop (obs.length - 5) := by
  have hn : (runDetector obs).consider_last_n = 5 := by
    rw [runDetector, feedAll_consider]
    rfl
  rw [hn, runDetector_tokens]
  constructor
  · rw [pyNegSlice_length 5 (by norm_num), List.length_map]
    omega
  · rw [pyNegSlice]
    simp [List.length_map]

theorem window_bound_fifo_witness :
    pyNegSlice (runDetector (List.replicate 6 (['a'], 1))).consider_last_n
      (runDetector (List.replicate 6 (['a'], 1))).tokens_so_far
      = ((List.replicate 6 ((['a'], (1 : ℚ)))).map sanitizeObs).drop
          ((List.replicate 6 ((['a'], (1 : ℚ)))).length - 5) :=
  (window_bound_fifo (List.replicate 6 (['a'], 1)) (by simp)).2

/-- C10: every text the scorer stores is free of `';'` (feed_new_event strips
the character before appending), and feeding a pipeline `word_list` — words
joined with `';'` — stores exactly the words concatenated with no separator
when the words themselves contain no `';'`. -/
theorem semicolon_free_storage :
    (∀ obs : List (List Char × ℚ), ∀ t ∈ (runDetector obs).tokens_so_far,
      ';' ∉ t.1) ∧
    (∀ (d : EventDetector) (words : List (List Char)) (amp : ℚ),
      (∀ w ∈ words, ';' ∉ w) →
      (d.feed_new_event (joinSemi words, amp)).tokens_so_far
        = d.tokens_so_far ++ [(words.flatten, amp)]) := by
  constructor
  · intro obs t ht
    rw [runDetector_tokens] at ht
    obtain ⟨o, _, rfl⟩ := List.mem_map.mp ht
    intro habs
    have := (List.mem_filter.mp habs).2
    simp at this
  · intro d words amp hwords
    rw [feed_new_event_tokens]
    simp only [sanitizeObs]
    rw [removeSemi_joinSemi words hwords]

theorem semicolon_free_storage_witness :
    (∀ w ∈ [['g', 'o'], ['t', 'e', 'a', 'm']], ';' ∉ w) ∧
    (EventDetector.init.feed_new_event
        (joinSemi [['g', 'o'], ['t', 'e', 'a', 'm']], 1)).tokens_so_far
      = EventDetector.init.tokens_so_far
        ++ [([['g', 'o'], ['t', 'e', 'a', 'm']].flatten, (1 : ℚ))] :=
  ⟨by decide,
    semicolon_free_storage.2 EventDetector.init [['g', 'o'], ['t', 'e', 'a', 'm']] 1
      (by decide)⟩

/-- C5: the chunk-loop pacing never begins waiting for chunk `i+1` before
`start_wall_time + (i+1) * chunk_length`: when the clock is short of the
target it sleeps exactly `target_time - now`, when processing overran the
target it proceeds at once, and after `i` chunks the wall clock is never
below `start_wall_time + i * chunk_length`, whatever the processing times. -/
theorem pacing_no_drift (start_wall_time chunk_length now : ℚ)
    (proc : Nat → ℚ) (i : Nat) :
    (now < start_wall_time + (i + 1) * chunk_length →
      paceStep start_wall_time chunk_length i now
        = now + (start_wall_time + (i + 1) * chunk_length - now)) ∧
    (start_wall_time + (i + 1) * chunk_length ≤ now →
      paceStep start_wall_time chunk_length i now = now) ∧
    start_wall_time + i * chunk_length
      ≤ paceRun start_wall_time chunk_length proc i := by
  refine ⟨?_, ?_, ?_⟩
  · intro h
    simp only [paceStep]
    rw [if_pos (by linarith)]
  · intro h
    simp only [paceStep]
    rw [if_neg (by linarith)]
  · cases i with
    | zero => simp [paceRun]
    | succ n =>
      rw [paceRun]
      simp only [paceStep]
      split
      · push_cast
        linarith
      · rename_i h
        push_cast
        linarith

theorem pacing_no_drift_witness :
    paceStep 0 CHUNK_LENGTH 0 3 = 5 ∧
    paceStep 0 CHUNK_LENGTH 1 11 = 11 ∧
    (10 : ℚ) ≤ paceRun 0 CHUNK_LENGTH (fun _ => 1) 2 := by
  have h1 := (pacing_no_drift 0 CHUNK_LENGTH 3 (fun _ => 1) 0).1
    (by norm_num [CHUNK_LENGTH])
  have h2 := (pacing_no_drift 0 CHUNK_LENGTH 11 (fun _ => 1) 1).2.1
    (by norm_num [CHUNK_LENGTH])
  have h3 := (pacing_no_drift 0 CHUNK_LENGTH 11 (fun _ => 1) 2).2.2
  refine ⟨?_, h2, ?_⟩
  · rw [h1]
    norm_num [CHUNK_LENGTH]
  · push_cast at h3
    norm_num [CHUNK_LENGTH] at h3
    exact h3

/-- C6: once a result is stored under a cache key, a repeated request with
that key returns the stored result unchanged and performs no download,
extraction, amplitude or transcription work; and any request answered `ok`
leaves its result stored under the key, so the computation for a key runs at
most once across sequential repeated requests. -/
theorem cache_hit_returns_stored (pipe : Pipeline) (now : ℚ) (cache : ChunkCache)
    (video_url : String) (start_time duration : ℚ) (r : ChunkResult)
    (h : cacheLookup cache video_url (video_url, start_time, duration) = some r) :
    process_chunk pipe now cache video_url start_time duration
      = (cache, ChunkResponse.ok r, false) ∧
    ∀ (pipe2 : Pipeline) (now2 : ℚ) (cache2 : ChunkCache) (r2 : ChunkResult),
      (process_chunk pipe2 now2 cache2 video_url start_time duration).2.1
          = ChunkResponse.ok r2 →
      cacheLookup (process_chunk pipe2 now2 cache2 video_url start_time duration).1
        video_url (video_url, start_time, duration) = some r2 := by
  refine ⟨by simp [process_chunk, h], ?_⟩
  intro pipe2 now2 cache2 r2 hok
  exact process_chunk_ok_cached pipe2 now2 cache2 video_url start_time duration r2 hok

theorem cache_hit_returns_stored_witness :
    process_chunk failingPipeline 7 (cacheInsert [] "u" ("u", 0, 5) sampleResult)
      "u" 0 5
      = (cacheInsert [] "u" ("u", 0, 5) sampleResult,
          ChunkResponse.ok sampleResult, false) :=
  (cache_hit_returns_stored failingPipeline 7
    (cacheInsert [] "u" ("u", 0, 5) sampleResult) "u" 0 5 sampleResult rfl).1

/-- C7: a failed chunk request (download returned no path, or an
extraction/transcription stage raised) leaves the cache exactly as it was
and creates no entry for the requested key. -/
theorem failed_request_leaves_cache (pipe : Pipeline) (now : ℚ) (cache : ChunkCache)
    (video_url : String) (start_time duration : ℚ) (e : String)
    (h : (process_chunk pipe now cache video_url start_time duration).2.1
        = ChunkResponse.err e) :
    (process_chunk pipe now cache video_url start_time duration).1 = cache ∧
    cacheLookup cache video_url (video_url, start_time, duration) = none ∧
    cacheLookup (process_chunk pipe now cache video_url start_time duration).1
      video_url (video_url, start_time, duration) = none := by
  rcases hc : cacheLookup cache video_url (video_url, start_time, duration) with _ | r0
  · rcases hd : pipe.download_chunk video_url start_time duration with _ | path
    · exact ⟨by simp [process_chunk, hc, hd], rfl, by simp [process_chunk, hc, hd]⟩
    · rcases he : pipe.extract_audio path start_time with e1 | audio
      · exact ⟨by simp [process_chunk, hc, hd, he], rfl,
          by simp [process_chunk, hc, hd, he]⟩
      · rcases ha : pipe.get_amplitudes audio with e1 | amps
        · exact ⟨by simp [process_chunk, hc, hd, he, ha], rfl,
            by simp [process_chunk, hc, hd, he, ha]⟩
        · rcases ht : pipe.transcribe audio with e1 | tr
          · exact ⟨by simp [process_chunk, hc, hd, he, ha, ht], rfl,
              by simp [process_chunk, hc, hd, he, ha, ht]⟩
          · simp [process_chunk, hc, hd, he, ha, ht] at h
  · simp [process_chunk, hc] at h

theorem failed_request_leaves_cache_witness :
    (process_chunk failingPipeline 0 [] "u" 0 5).1 = ([] : ChunkCache) ∧
    cacheLookup (process_chunk failingPipeline 0 [] "u" 0 5).1 "u" ("u", 0, 5)
      = none := by
  have h := failed_request_leaves_cache failingPipeline 0 [] "u" 0 5
    "Failed to download chunk" rfl
  exact ⟨h.1, h.2.2⟩

/-- C8: every failure path of the transcription operation (missing audio
file, unloaded model, or a backend exception) returns the well-formed
degraded result with empty text and empty segments instead of raising, and
a failing amplitude computation returns the empty list, so an extraction
failure degrades the chunk result to empty signals. -/
theorem extraction_failures_degrade :
    emptyTranscript.text = "" ∧ emptyTranscript.segments = [] ∧
    (∀ (model_type : String) (modelLoaded : Bool)
        (wr : Except String WhisperOutput) (w2 : Except String String),
      TranscriptionService.transcribe model_type false modelLoaded wr w2
        = emptyTranscript) ∧
    (∀ (model_type : String) (fileExists : Bool)
        (wr : Except String WhisperOutput) (w2 : Except String String),
      TranscriptionService.transcribe model_type fileExists false wr w2
        = emptyTranscript) ∧
    (∀ (e : String) (w2 : Except String String),
      TranscriptionService.transcribe "whisper-tiny" true true (Except.error e) w2
        = emptyTranscript) ∧
    (∀ e : String,
      TranscriptionService.transcribe "wav2vec2" true true (Except.error e)
        (Except.error e) = emptyTranscript) ∧
    (∀ e : String, AudioProcessor.get_amplitudes (Except.error e) = []) := by
  refine ⟨rfl, rfl, ?_, ?_, ?_, ?_, ?_⟩
  · intro model_type modelLoaded wr w2
    rfl
  · intro model_type fileExists wr w2
    cases fileExists <;> rfl
  · intro e w2
    rfl
  · intro e
    rfl
  · intro e
    rfl

/-- C9: when the materialized chunk file for `(start_time, duration)` already
exists on storage, `download_chunk` returns its path without invoking the
network/subprocess fetch; the existence check precedes any fetch. -/
theorem existing_chunk_no_refetch (file_exists : String → Bool)
    (fetch : String → ℚ → ℚ → Except String Bool)
    (chunks_folder video_url : String) (start_time duration : ℚ)
    (h : file_exists (chunkFilePath chunks_folder start_time duration) = true) :
    VideoProcessor.download_chunk file_exists fetch chunks_folder video_url
      start_time duration
      = (some (chunkFilePath chunks_folder start_time duration), false) := by
  simp [VideoProcessor.download_chunk, h]

theorem existing_chunk_no_refetch_witness :
    VideoProcessor.download_chunk (fun _ => true)
      (fun _ _ _ => Except.error "network") "chunks" "http://v" 0 5
      = (some (chunkFilePath "chunks" 0 5), false) :=
  existing_chunk_no_refetch (fun _ => true) (fun _ _ _ => Except.error "network")
    "chunks" "http://v" 0 5 rfl
